import Mathlib

/-!
Shallow embedding of the OpportunityExpander service (`src/main.py`) of the
`8_detailed_opportunities` repository, together with a spec-modelled fragment
of the CompetitorFinder service described in the specification but absent from
the source tree.

The Tabular Store table `competitor_summary` is modelled as a list of rows.
The Language Model Client is an oracle parameter: a function from the system
prompt and user prompt to either a parsed structured object or an exception.
Python exceptions are modelled by `Exc`, separating `ValueError` (which the
endpoint handler catches first) from every other exception class.  External
calls are recorded in an event trace so that orchestration order is provable.
-/

/-- A row of the `competitor_summary` table.  The three non-key columns are
nullable from this system's point of view: `Option.none` models a field that
is absent from the record dictionary. -/
structure SummaryRecord where
  brand_name : String
  competitive_summary : Option String
  gaps_opportunities : Option String
  detailed_opportunities : Option String
deriving Repr, DecidableEq

/-- The projection of a row returned by
`select('competitive_summary, gaps_opportunities')`. -/
structure SummaryData where
  competitive_summary : Option String
  gaps_opportunities : Option String
deriving Repr, DecidableEq

/-- Pydantic model `DetailedOpportunities` (src/main.py lines 43-44). -/
structure DetailedOpportunities where
  detailed_opportunities : String
deriving Repr, DecidableEq

/-- Pydantic model `OpportunitiesResponse` (src/main.py lines 46-48). -/
structure OpportunitiesResponse where
  brand_name : String
  detailed_opportunities : String
deriving Repr, DecidableEq

/-- Python exceptions, split by the classes the endpoint handler dispatches
on: `ValueError` versus every other `Exception`. -/
inductive Exc where
  | valueError (msg : String)
  | otherError (msg : String)
deriving Repr, DecidableEq

/-- The text carried by an exception (`str(e)` in the handler). -/
def Exc.msg : Exc → String
  | .valueError m => m
  | .otherError m => m

/-- One observable external call made by the service. -/
inductive Event where
  | storeSelect (table : String) (columns : String) (brand : String)
  | modelCall (system : String) (user : String)
  | storeUpdate (table : String) (brand : String) (patch : List (String × String))
deriving Repr, DecidableEq

abbrev Trace := List Event

/-- The Language Model Client as an oracle: system prompt and user prompt in,
either a parsed `DetailedOpportunities` or an exception out. -/
abbrev LLM := String → String → Except Exc DetailedOpportunities

/-- Column projection performed by the select in `get_summary_data`. -/
def toSummaryData (r : SummaryRecord) : SummaryData :=
  { competitive_summary := r.competitive_summary
    gaps_opportunities := r.gaps_opportunities }

/-- `get_summary_data` (src/main.py lines 50-61): select the two summary
columns of the rows whose `brand_name` matches, raise
`ValueError(f"No summary data found for {brand_name}")` when no row matches,
otherwise return the first row. -/
def get_summary_data (table : List SummaryRecord) (tr : Trace)
    (brand_name : String) : Except Exc SummaryData × Trace :=
  let tr1 := tr ++ [Event.storeSelect "competitor_summary"
    "competitive_summary, gaps_opportunities" brand_name]
  match (table.filter (fun r => r.brand_name == brand_name)).map toSummaryData with
  | [] => (.error (.valueError ("No summary data found for " ++ brand_name)), tr1)
  | d :: _ => (.ok d, tr1)

/-- The user prompt built by `analyze_opportunities` (src/main.py lines
67-76), an f-string over the brand name and the two summary fields; a field
missing from the record dictionary renders as the literal placeholder
`N/A` via `dict.get(key, 'N/A')`. -/
def opportunities_prompt (brand_name : String) (summary_data : SummaryData) : String :=
  "Based on this competitive analysis for " ++ brand_name ++ ":\n\n    Market Overview: "
    ++ summary_data.competitive_summary.getD "N/A"
    ++ "\n    Initial Opportunities Identified: "
    ++ summary_data.gaps_opportunities.getD "N/A"
    ++ "\n\n    Take the existing opportunities identified, conduct additional research if needed and further reinforce the opportunites or existing gaps in the comeptitive loyalty landscape:\n    1. Common gaps and opportunities\n    2. Gaps and opportunities unique to the brand or industry\n\n    Structure the response in bullet form. Ensure you elaborate on the gaps and opportunities and identify which could provide quick wins and which are longer-term strategic"

/-- The system prompt of the structured completion call (src/main.py
line 81). -/
def system_prompt (brand_name : String) : String :=
  "You are an analyst helping " ++ brand_name
    ++ " find opportunities to differentiate it\x27s future loyalty program."

/-- `analyze_opportunities` (src/main.py lines 63-87): build the prompts and
submit a structured completion request; the parsed reply (or the client's
exception) is returned unchanged. -/
def analyze_opportunities (llm : LLM) (brand_name : String)
    (summary_data : SummaryData) (tr : Trace) :
    Except Exc DetailedOpportunities × Trace :=
  let prompt := opportunities_prompt brand_name summary_data
  let sys := system_prompt brand_name
  (llm sys prompt, tr ++ [Event.modelCall sys prompt])

/-- The update patch sent to the store (src/main.py lines 94-96): a
dictionary holding exactly the key `detailed_opportunities`. -/
def update_patch (analysis : DetailedOpportunities) : List (String × String) :=
  [("detailed_opportunities", analysis.detailed_opportunities)]

/-- Effect of applying the update patch to one row. -/
def apply_update (r : SummaryRecord) (analysis : DetailedOpportunities) : SummaryRecord :=
  { r with detailed_opportunities := some analysis.detailed_opportunities }

/-- The table after the store executes
`update({'detailed_opportunities': ...}).eq('brand_name', brand_name)`:
every matching row is patched, every other row is untouched. -/
def update_rows (table : List SummaryRecord) (brand_name : String)
    (analysis : DetailedOpportunities) : List SummaryRecord :=
  table.map (fun r => if r.brand_name == brand_name then apply_update r analysis else r)

/-- `update_opportunities_analysis` (src/main.py lines 89-102): run the
update, then take `response.data[0]` with no guard — when the filter matched
no row the returned data list is empty and the indexing raises `IndexError`
(re-raised unchanged by the `except` clause); otherwise the first updated row
is returned. -/
def update_opportunities_analysis (table : List SummaryRecord)
    (brand_name : String) (analysis : DetailedOpportunities) (tr : Trace) :
    Except Exc (SummaryRecord × List SummaryRecord) × Trace :=
  let tr1 := tr ++ [Event.storeUpdate "competitor_summary" brand_name (update_patch analysis)]
  match (table.filter (fun r => r.brand_name == brand_name)).map
      (fun r => apply_update r analysis) with
  | [] => (.error (.otherError "list index out of range"), tr1)
  | row :: _ => (.ok (row, update_rows table brand_name analysis), tr1)

/-- Outcome of one HTTP request. -/
inductive HttpOutcome where
  | success (body : OpportunitiesResponse)
  | failure (status : Nat) (detail : String)
deriving Repr, DecidableEq

/-- The `except` clauses of the endpoint handler (src/main.py lines
134-139): a `ValueError` maps to `HTTPException(404, str(e))`, any other
exception to `HTTPException(500, str(e))`. -/
def handle_exception : Exc → HttpOutcome
  | .valueError m => .failure 404 m
  | .otherError m => .failure 500 m

/-- Result of the `POST /opportunities/{brand_name}` endpoint: the HTTP
outcome, the resulting store table, and the trace of external calls. -/
structure HandlerResult where
  outcome : HttpOutcome
  table : List SummaryRecord
  trace : Trace
deriving Repr, DecidableEq

/-- `expand_opportunities_analysis` (src/main.py lines 110-139): fetch the
summary, call the model, persist the analysis, respond with the brand name
and the model's parsed string; exceptions are dispatched by
`handle_exception`. -/
def expand_opportunities_analysis (llm : LLM) (table : List SummaryRecord)
    (brand_name : String) : HandlerResult :=
  match get_summary_data table [] brand_name with
  | (.error e, tr1) => ⟨handle_exception e, table, tr1⟩
  | (.ok summary_data, tr1) =>
    match analyze_opportunities llm brand_name summary_data tr1 with
    | (.error e, tr2) => ⟨handle_exception e, table, tr2⟩
    | (.ok detailed_analysis, tr2) =>
      match update_opportunities_analysis table brand_name detailed_analysis tr2 with
      | (.error e, tr3) => ⟨handle_exception e, table, tr3⟩
      | (.ok (_updated_data, newTable), tr3) =>
        ⟨.success ⟨brand_name, detailed_analysis.detailed_opportunities⟩, newTable, tr3⟩

/-- Response of the health-check endpoint `root` (src/main.py lines
105-108). -/
structure HealthResponse where
  status : String
deriving Repr, DecidableEq

/-- `root` (src/main.py lines 105-108): the handler reads neither the
configuration nor the store, so it is modelled as a function of both that
ignores them and returns the constant body. -/
def root (openai_key supabase_url supabase_key : Option String)
    (table : List SummaryRecord) : HealthResponse :=
  { status := "API is running" }

/-- Modelled from the spec: the reply-parsing step of
`findCompetitors` (CompetitorFinder service, not present under `src/`):
"receives a single comma-separated text reply, splits on `,`, trims
whitespace from each element", keeping empty tokens.  Splitting on the comma
character, structural recursion over the character list. -/
def splitOnCommaAux : List Char → List Char → List (List Char)
  | [], acc => [acc.reverse]
  | c :: cs, acc =>
    if c = ',' then acc.reverse :: splitOnCommaAux cs []
    else splitOnCommaAux cs (c :: acc)

/-- Modelled from the spec: drop leading whitespace characters. -/
def dropLeadingWS : List Char → List Char
  | [] => []
  | c :: cs => if c.isWhitespace then dropLeadingWS cs else c :: cs

/-- Modelled from the spec: trim whitespace from both ends of a token. -/
def trimChars (cs : List Char) : List Char :=
  ((dropLeadingWS (dropLeadingWS cs).reverse)).reverse

/-- Modelled from the spec: `findCompetitors` applied to the model's single
comma-separated reply: split the reply on `,` and trim whitespace from each
element, preserving order and keeping empty tokens as empty strings. -/
def find_competitors_of_reply (reply : String) : List String :=
  (splitOnCommaAux reply.data []).map (fun cs => String.mk (trimChars cs))

/-- The fixed text of `opportunities_prompt` before the brand name. -/
def prompt_head : String := "Based on this competitive analysis for "

/-- The fixed text between the brand name and the `competitive_summary`
slot. -/
def prompt_mid1 : String := ":\n\n    Market Overview: "

/-- The fixed text between the `competitive_summary` slot and the
`gaps_opportunities` slot. -/
def prompt_mid2 : String := "\n    Initial Opportunities Identified: "

/-- The fixed text after the `gaps_opportunities` slot. -/
def prompt_tail : String := "\n\n    Take the existing opportunities identified, conduct additional research if needed and further reinforce the opportunites or existing gaps in the comeptitive loyalty landscape:\n    1. Common gaps and opportunities\n    2. Gaps and opportunities unique to the brand or industry\n\n    Structure the response in bullet form. Ensure you elaborate on the gaps and opportunities and identify which could provide quick wins and which are longer-term strategic"

/-! ## Helper lemmas -/

theorem update_rows_detailed_of_match (table : List SummaryRecord)
    (brand_name : String) (analysis : DetailedOpportunities) :
    ∀ t ∈ update_rows table brand_name analysis, t.brand_name = brand_name →
      t.detailed_opportunities = some analysis.detailed_opportunities := by
  intro t ht hb
  simp only [update_rows, List.mem_map] at ht
  obtain ⟨x, _, hxt⟩ := ht
  by_cases h : x.brand_name = brand_name
  · have hbeq : (x.brand_name == brand_name) = true := by simpa using h
    rw [if_pos hbeq] at hxt
    subst hxt
    rfl
  · have hbeq : ¬((x.brand_name == brand_name) = true) := by simpa using h
    rw [if_neg hbeq] at hxt
    subst hxt
    exact absurd hb h

theorem update_rows_proj_eq {α : Type} (table : List SummaryRecord)
    (brand_name : String) (analysis : DetailedOpportunities)
    (f : SummaryRecord → α) (hf : ∀ r, f (apply_update r analysis) = f r) :
    (update_rows table brand_name analysis).map f = table.map f := by
  induction table with
  | nil => rfl
  | cons x xs ih =>
    simp only [update_rows, List.map_cons] at ih ⊢
    refine congrArg₂ (· :: ·) ?_ ih
    by_cases h : x.brand_name == brand_name <;> simp [h, hf]

/-! ## Claim theorems -/

/-- C8: `GET /` returns `status = "API is running"` for every request,
independently of whether any of the three configuration values is present
and of the state of the store table. -/
theorem c8_root_always_running (openai_key supabase_url supabase_key : Option String)
    (table : List SummaryRecord) :
    root openai_key supabase_url supabase_key table = { status := "API is running" } :=
  rfl

/-- C7: `findCompetitors` splits the model's comma-separated reply on the
comma, trims whitespace from each element, preserves order, and keeps empty
tokens as empty strings; in particular the reply `"A, B,C ,D,E"` parses to
`["A","B","C","D","E"]`. -/
theorem c7_find_competitors_split_trim :
    find_competitors_of_reply "A, B,C ,D,E" = ["A", "B", "C", "D", "E"] ∧
    find_competitors_of_reply "A,,B , " = ["A", "", "B", ""] ∧
    ∀ reply : String, (find_competitors_of_reply reply).length
      = (splitOnCommaAux reply.data []).length := by
  refine ⟨by decide, by decide, ?_⟩
  intro reply
  simp [find_competitors_of_reply]

/-- C9: `update_opportunities_analysis` indexes the store's reply without a
guard: when the filter matches at least one row the indexing succeeds and
the first updated row is returned together with the updated table; when the
filter matches no row the operation raises (an `IndexError`, not a return),
so the endpoint never reports success without a matching row. -/
theorem c9_update_strict_indexing (table : List SummaryRecord)
    (brand_name : String) (analysis : DetailedOpportunities) (tr : Trace) :
    (∀ r rs, table.filter (fun t => t.brand_name == brand_name) = r :: rs →
      (update_opportunities_analysis table brand_name analysis tr).1
        = .ok (apply_update r analysis, update_rows table brand_name analysis)) ∧
    (table.filter (fun t => t.brand_name == brand_name) = [] →
      (update_opportunities_analysis table brand_name analysis tr).1
        = .error (.otherError "list index out of range")) := by
  constructor
  · intro r rs h
    simp [update_opportunities_analysis, h]
  · intro h
    simp [update_opportunities_analysis, h]

/-- Witness for C9: one matching row, indexing succeeds and returns the
patched row. -/
theorem c9_update_strict_indexing_witness :
    (update_opportunities_analysis [⟨"Acme", some "S", some "G", none⟩]
      "Acme" ⟨"D"⟩ []).1
      = .ok (⟨"Acme", some "S", some "G", some "D"⟩,
        [⟨"Acme", some "S", some "G", some "D"⟩]) :=
  (c9_update_strict_indexing [⟨"Acme", some "S", some "G", none⟩] "Acme"
    ⟨"D"⟩ []).1 ⟨"Acme", some "S", some "G", none⟩ [] (by decide)

/-- C1: for a brand with a summary row, a successful request first issues the
select, then the model call, then the update (in that trace order); the
update writes the model's parsed `detailed_opportunities` string into every
matching row, and the response body is the brand name together with exactly
that model-returned string. -/
theorem c1_success_flow (llm : LLM) (table : List SummaryRecord)
    (brand_name d : String) (r : SummaryRecord) (rs : List SummaryRecord)
    (hrow : table.filter (fun t => t.brand_name == brand_name) = r :: rs)
    (hmodel : llm (system_prompt brand_name)
      (opportunities_prompt brand_name (toSummaryData r)) = .ok ⟨d⟩) :
    (expand_opportunities_analysis llm table brand_name).outcome
        = .success ⟨brand_name, d⟩ ∧
    (expand_opportunities_analysis llm table brand_name).trace
        = [Event.storeSelect "competitor_summary"
             "competitive_summary, gaps_opportunities" brand_name,
           Event.modelCall (system_prompt brand_name)
             (opportunities_prompt brand_name (toSummaryData r)),
           Event.storeUpdate "competitor_summary" brand_name
             [("detailed_opportunities", d)]] ∧
    ∀ t ∈ (expand_opportunities_analysis llm table brand_name).table,
      t.brand_name = brand_name → t.detailed_opportunities = some d := by
  have hres : expand_opportunities_analysis llm table brand_name
      = ⟨.success ⟨brand_name, d⟩, update_rows table brand_name ⟨d⟩,
         [Event.storeSelect "competitor_summary"
            "competitive_summary, gaps_opportunities" brand_name,
          Event.modelCall (system_prompt brand_name)
            (opportunities_prompt brand_name (toSummaryData r)),
          Event.storeUpdate "competitor_summary" brand_name
            [("detailed_opportunities", d)]]⟩ := by
    simp [expand_opportunities_analysis, get_summary_data, hrow,
      analyze_opportunities, hmodel, update_opportunities_analysis, update_patch]
  refine ⟨by rw [hres], by rw [hres], ?_⟩
  rw [hres]
  exact update_rows_detailed_of_match table brand_name ⟨d⟩

/-- Witness for C1 at a one-row table and a model returning "D". -/
theorem c1_success_flow_witness :
    (expand_opportunities_analysis (fun _ _ => .ok ⟨"D"⟩)
      [⟨"Acme", some "S", some "G", none⟩] "Acme").outcome
      = .success ⟨"Acme", "D"⟩ :=
  (c1_success_flow (fun _ _ => .ok ⟨"D"⟩) [⟨"Acme", some "S", some "G", none⟩]
    "Acme" "D" ⟨"Acme", some "S", some "G", none⟩ [] (by decide) rfl).1

/-- C2: for a brand with no matching summary row, `get_summary_data` raises
the not-found `ValueError`, the endpoint answers HTTP 404 with that message,
the table is unchanged, and the trace holds only the select — no model call
and no write. -/
theorem c2_missing_summary_is_404 (llm : LLM) (table : List SummaryRecord)
    (brand_name : String)
    (hnone : table.filter (fun t => t.brand_name == brand_name) = []) :
    (get_summary_data table [] brand_name).1
        = .error (.valueError ("No summary data found for " ++ brand_name)) ∧
    (expand_opportunities_analysis llm table brand_name).outcome
        = .failure 404 ("No summary data found for " ++ brand_name) ∧
    (expand_opportunities_analysis llm table brand_name).table = table ∧
    (expand_opportunities_analysis llm table brand_name).trace
        = [Event.storeSelect "competitor_summary"
            "competitive_summary, gaps_opportunities" brand_name] := by
  refine ⟨by simp [get_summary_data, hnone], ?_, ?_, ?_⟩ <;>
    simp [expand_opportunities_analysis, get_summary_data, hnone, handle_exception]

/-- Witness for C2: a table whose only row is for another brand. -/
theorem c2_missing_summary_is_404_witness :
    (expand_opportunities_analysis (fun _ _ => .ok ⟨"D"⟩)
      [⟨"Other", some "S", some "G", none⟩] "Acme").outcome
      = .failure 404 "No summary data found for Acme" :=
  (c2_missing_summary_is_404 (fun _ _ => .ok ⟨"D"⟩)
    [⟨"Other", some "S", some "G", none⟩] "Acme" (by decide)).2.1

/-- C3 (counterexample): a `ValueError` raised by the model call — an
exception other than the not-found condition from the fetch step — is
answered with HTTP 404, not HTTP 500 as the claim states. -/
theorem c3_counterexample :
    (expand_opportunities_analysis (fun _ _ => .error (.valueError "boom"))
      [⟨"Acme", some "S", some "G", none⟩] "Acme").outcome
      = .failure 404 "boom" ∧
    (expand_opportunities_analysis (fun _ _ => .error (.valueError "boom"))
      [⟨"Acme", some "S", some "G", none⟩] "Acme").outcome
      ≠ .failure 500 "boom" := by
  constructor <;> decide

/-- C3 (amended): every exception that is not a `ValueError` — whatever step
raises it — is answered with HTTP 500 and the response detail is the raised
error's text verbatim; shown here for an arbitrary non-`ValueError`
exception from the model call, the only fallible step once the fetch has
succeeded. -/
theorem c3_non_valueerror_is_500 (llm : LLM) (table : List SummaryRecord)
    (brand_name m : String) (r : SummaryRecord) (rs : List SummaryRecord)
    (hrow : table.filter (fun t => t.brand_name == brand_name) = r :: rs)
    (hmodel : llm (system_prompt brand_name)
      (opportunities_prompt brand_name (toSummaryData r))
        = .error (.otherError m)) :
    (expand_opportunities_analysis llm table brand_name).outcome
      = .failure 500 m := by
  simp [expand_opportunities_analysis, get_summary_data, hrow,
    analyze_opportunities, hmodel, handle_exception]

/-- Witness for the amended C3: a non-`ValueError` model failure yields 500
with the error's text. -/
theorem c3_non_valueerror_is_500_witness :
    (expand_opportunities_analysis (fun _ _ => .error (.otherError "rate limited"))
      [⟨"Acme", some "S", some "G", none⟩] "Acme").outcome
      = .failure 500 "rate limited" :=
  c3_non_valueerror_is_500 (fun _ _ => .error (.otherError "rate limited"))
    [⟨"Acme", some "S", some "G", none⟩] "Acme" "rate limited"
    ⟨"Acme", some "S", some "G", none⟩ [] (by decide) rfl

/-- C4: the handler dispatches on the exception's type, not on the step that
raised it: a `ValueError`, whether it is the missing-row check's not-found
error or raised by the model call, is answered with HTTP 404 carrying that
error's text. -/
theorem c4_valueerror_always_404 (llm : LLM) (table : List SummaryRecord)
    (brand_name m : String) :
    (table.filter (fun t => t.brand_name == brand_name) = [] →
      (expand_opportunities_analysis llm table brand_name).outcome
        = .failure 404 ("No summary data found for " ++ brand_name)) ∧
    (∀ r rs, table.filter (fun t => t.brand_name == brand_name) = r :: rs →
      llm (system_prompt brand_name)
          (opportunities_prompt brand_name (toSummaryData r))
        = .error (.valueError m) →
      (expand_opportunities_analysis llm table brand_name).outcome
        = .failure 404 m) := by
  constructor
  · intro hnone
    simp [expand_opportunities_analysis, get_summary_data, hnone, handle_exception]
  · intro r rs hrow hmodel
    simp [expand_opportunities_analysis, get_summary_data, hrow,
      analyze_opportunities, hmodel, handle_exception]

/-- Witness for C4: a `ValueError` raised by the model call, not by the
missing-row check, still maps to HTTP 404. -/
theorem c4_valueerror_always_404_witness :
    (expand_opportunities_analysis (fun _ _ => .error (.valueError "bad value"))
      [⟨"Acme", some "S", some "G", none⟩] "Acme").outcome
      = .failure 404 "bad value" :=
  (c4_valueerror_always_404 (fun _ _ => .error (.valueError "bad value"))
    [⟨"Acme", some "S", some "G", none⟩] "Acme" "bad value").2
    ⟨"Acme", some "S", some "G", none⟩ [] (by decide) rfl

/-- C5: the update sends a patch holding exactly the key
`detailed_opportunities`, and the operation leaves every row's `brand_name`,
`competitive_summary` and `gaps_opportunities` unchanged across the whole
table. -/
theorem c5_update_writes_only_detailed (table : List SummaryRecord)
    (brand_name : String) (analysis : DetailedOpportunities) (tr : Trace) :
    update_patch analysis
        = [("detailed_opportunities", analysis.detailed_opportunities)] ∧
    (update_opportunities_analysis table brand_name analysis tr).2
        = tr ++ [Event.storeUpdate "competitor_summary" brand_name
            [("detailed_opportunities", analysis.detailed_opportunities)]] ∧
    (update_rows table brand_name analysis).map (fun r => r.brand_name)
        = table.map (fun r => r.brand_name) ∧
    (update_rows table brand_name analysis).map (fun r => r.competitive_summary)
        = table.map (fun r => r.competitive_summary) ∧
    (update_rows table brand_name analysis).map (fun r => r.gaps_opportunities)
        = table.map (fun r => r.gaps_opportunities) := by
  refine ⟨rfl, ?_, ?_, ?_, ?_⟩
  · unfold update_opportunities_analysis
    rcases h : (table.filter (fun r => r.brand_name == brand_name)).map
        (fun r => apply_update r analysis) with _ | ⟨row, rest⟩ <;>
      simp [h, update_patch]
  · exact update_rows_proj_eq table brand_name analysis _ (fun r => rfl)
  · exact update_rows_proj_eq table brand_name analysis _ (fun r => rfl)
  · exact update_rows_proj_eq table brand_name analysis _ (fun r => rfl)

/-- C6: the prompt built by `analyze_opportunities` embeds the brand name and
the two summary fields `competitive_summary` and `gaps_opportunities`; a
missing field renders as the literal placeholder `N/A` rather than
failing. -/
theorem c6_prompt_embeds_brand_and_fields (brand_name : String)
    (cs go : Option String) :
    (∃ x y, opportunities_prompt brand_name ⟨cs, go⟩ = x ++ brand_name ++ y) ∧
    (∃ x y, opportunities_prompt brand_name ⟨cs, go⟩
        = x ++ cs.getD "N/A" ++ y) ∧
    (∃ x y, opportunities_prompt brand_name ⟨cs, go⟩
        = x ++ go.getD "N/A" ++ y) ∧
    (cs = none → opportunities_prompt brand_name ⟨cs, go⟩
        = opportunities_prompt brand_name ⟨some "N/A", go⟩) ∧
    (go = none → opportunities_prompt brand_name ⟨cs, go⟩
        = opportunities_prompt brand_name ⟨cs, some "N/A"⟩) := by
  refine ⟨?_, ?_, ?_, ?_, ?_⟩
  · exact ⟨prompt_head,
      prompt_mid1 ++ cs.getD "N/A" ++ prompt_mid2 ++ go.getD "N/A" ++ prompt_tail,
      by simp [opportunities_prompt, prompt_head, prompt_mid1, prompt_mid2,
        prompt_tail, String.append_assoc]⟩
  · exact ⟨prompt_head ++ brand_name ++ prompt_mid1,
      prompt_mid2 ++ go.getD "N/A" ++ prompt_tail,
      by simp [opportunities_prompt, prompt_head, prompt_mid1, prompt_mid2,
        prompt_tail, String.append_assoc]⟩
  · exact ⟨prompt_head ++ brand_name ++ prompt_mid1 ++ cs.getD "N/A" ++ prompt_mid2,
      prompt_tail,
      by simp [opportunities_prompt, prompt_head, prompt_mid1, prompt_mid2,
        prompt_tail, String.append_assoc]⟩
  · intro h
    subst h
    rfl
  · intro h
    subst h
    rfl

/-- Witness for C6: with both fields missing, the prompt renders each slot
exactly as the literal placeholder string would render there. -/
theorem c6_prompt_embeds_brand_and_fields_witness :
    (opportunities_prompt "Acme" ⟨none, none⟩
        = opportunities_prompt "Acme" ⟨some "N/A", none⟩) ∧
    (opportunities_prompt "Acme" ⟨none, none⟩
        = opportunities_prompt "Acme" ⟨none, some "N/A"⟩) :=
  ⟨(c6_prompt_embeds_brand_and_fields "Acme" none none).2.2.2.1 rfl,
   (c6_prompt_embeds_brand_and_fields "Acme" none none).2.2.2.2 rfl⟩

/-- C10: the `detailed_opportunities` value in the response depends only on
the model's parsed output: two runs that receive the same model output,
against stores whose rows (and hence update-returned rows) may differ
arbitrarily, produce identical response bodies. -/
theorem c10_response_ignores_updated_row (llm1 llm2 : LLM)
    (t1 t2 : List SummaryRecord) (brand_name d : String)
    (r1 : SummaryRecord) (rs1 : List SummaryRecord)
    (r2 : SummaryRecord) (rs2 : List SummaryRecord)
    (h1 : t1.filter (fun t => t.brand_name == brand_name) = r1 :: rs1)
    (h2 : t2.filter (fun t => t.brand_name == brand_name) = r2 :: rs2)
    (hm1 : llm1 (system_prompt brand_name)
      (opportunities_prompt brand_name (toSummaryData r1)) = .ok ⟨d⟩)
    (hm2 : llm2 (system_prompt brand_name)
      (opportunities_prompt brand_name (toSummaryData r2)) = .ok ⟨d⟩) :
    (expand_opportunities_analysis llm1 t1 brand_name).outcome
      = (expand_opportunities_analysis llm2 t2 brand_name).outcome := by
  have e1 : (expand_opportunities_analysis llm1 t1 brand_name).outcome
      = .success ⟨brand_name, d⟩ := by
    simp [expand_opportunities_analysis, get_summary_data, h1,
      analyze_opportunities, hm1, update_opportunities_analysis]
  have e2 : (expand_opportunities_analysis llm2 t2 brand_name).outcome
      = .success ⟨brand_name, d⟩ := by
    simp [expand_opportunities_analysis, get_summary_data, h2,
      analyze_opportunities, hm2, update_opportunities_analysis]
  rw [e1, e2]

/-- Witness for C10: two stores with different rows (so different
update-returned rows) and the same model output give identical outcomes. -/
theorem c10_response_ignores_updated_row_witness :
    (expand_opportunities_analysis (fun _ _ => .ok ⟨"D"⟩)
      [⟨"Acme", some "S1", some "G1", none⟩] "Acme").outcome
      = (expand_opportunities_analysis (fun _ _ => .ok ⟨"D"⟩)
      [⟨"Acme", some "S2", some "G2", some "old"⟩] "Acme").outcome :=
  c10_response_ignores_updated_row (fun _ _ => .ok ⟨"D"⟩) (fun _ _ => .ok ⟨"D"⟩)
    [⟨"Acme", some "S1", some "G1", none⟩]
    [⟨"Acme", some "S2", some "G2", some "old"⟩] "Acme" "D"
    ⟨"Acme", some "S1", some "G1", none⟩ []
    ⟨"Acme", some "S2", some "G2", some "old"⟩ []
    (by decide) (by decide) rfl rfl
